import Mathlib

/-!
# Service worker of Medical Center (`static/sw.js`)

A shallow embedding of the service worker: the cache storage of the host
(`caches`) is an explicit state, the network and the failures of the store
operations are an explicit environment, and every handler returns its
settled result together with the store it leaves and the sequence of the
host operations it performed.

An `async` function is modelled by the sequential run of its body up to the
moment its promise settles. A `cache.put(...)` that the source starts without
`await` is still pending at that moment: it is recorded in `pending`, and
`store` is the store without it. `landed` gives the store once the pending
writes have been carried out; a write the host rejects is dropped there, and
the source never observes the rejection.
-/

namespace ServiceWorker

/-! ## Strings of the host language -/

/-- The host method `s.startsWith(p)`. -/
def jsStartsWith (s p : String) : Bool :=
  p.toList.isPrefixOf s.toList

/-- The host method `s.endsWith(p)`. -/
def jsEndsWith (s p : String) : Bool :=
  p.toList.isSuffixOf s.toList

/-- The host method `s.includes(p)`: `p` occurs in `s` as a substring. -/
def jsIncludes (s p : String) : Bool :=
  s.toList.tails.any (fun t => p.toList.isPrefixOf t)

/-! ## Data model -/

/-- The parts of `new URL(request.url)` the worker looks at. -/
structure URL where
  origin : String
  pathname : String
  search : String
deriving DecidableEq, Repr

/-- A `Request` of the host: method, URL and destination. -/
structure Request where
  method : String
  url : URL
  destination : String
deriving DecidableEq, Repr

/-- A `Response` of the host. -/
structure Response where
  status : Nat
  headers : List (String × String)
  body : String
deriving DecidableEq, Repr

/-- The flag `response.ok`: the status is in the successful range 200..299. -/
def Response.ok (r : Response) : Bool :=
  decide (200 ≤ r.status) && decide (r.status ≤ 299)

/-- An error value of the host (what a rejected promise carries). -/
structure JsError where
  name : String
  message : String
deriving DecidableEq, Repr

/-- The key under which a cache holds an entry: method and URL of the request. -/
structure RequestKey where
  method : String
  url : URL
deriving DecidableEq, Repr

/-- The key of a request. -/
def Request.key (r : Request) : RequestKey :=
  ⟨r.method, r.url⟩

/-- One named cache (a namespace) of the cache storage. -/
structure Cache where
  name : String
  entries : List (RequestKey × Response)
deriving DecidableEq, Repr

/-- The cache storage `caches`: its caches in creation order. The host keeps
the names distinct; nothing below depends on it. -/
abbrev CacheStorage := List Cache

/-- The lookup `cache.match(request)` on one cache. -/
def Cache.lookup (c : Cache) (request : Request) : Option Response :=
  (c.entries.find? (fun e => decide (e.1 = request.key))).map Prod.snd

/-- The write `cache.put(request, response)` on one cache: the entry replaces
any entry of the same key. -/
def Cache.put (c : Cache) (request : Request) (response : Response) : Cache :=
  ⟨c.name, c.entries.filter (fun e => !decide (e.1 = request.key)) ++ [(request.key, response)]⟩

/-- The lookup `caches.match(request)`: the first entry for the request over
ALL caches, in creation order. -/
def cachesMatch (st : CacheStorage) (request : Request) : Option Response :=
  st.findSome? (fun c => c.lookup request)

/-- The call `caches.open(name)`: the cache is created on first use. -/
def cachesOpen (st : CacheStorage) (name : String) : CacheStorage :=
  if st.any (fun c => decide (c.name = name)) then st else st ++ [⟨name, []⟩]

/-- The write `cache.put` through the handle that `caches.open(name)` returned. -/
def cachePut (st : CacheStorage) (name : String) (request : Request) (response : Response) :
    CacheStorage :=
  st.map (fun c => if c.name = name then c.put request response else c)

/-- The call `caches.keys()`: the names of the caches. -/
def cachesKeys (st : CacheStorage) : List String :=
  st.map Cache.name

/-- The call `caches.delete(name)`. -/
def cachesDelete (st : CacheStorage) (name : String) : CacheStorage :=
  st.filter (fun c => !decide (c.name = name))

/-- The entry of a request in the cache of a given name, if any. -/
def namespaceLookup (st : CacheStorage) (name : String) (request : Request) : Option Response :=
  (st.find? (fun c => decide (c.name = name))).bind (fun c => c.lookup request)

/-- The host around one handler run: the outcome of `fetch`, and which store
operations reject. -/
structure Platform where
  origin : String
  fetch : Request → Except JsError Response
  openError : String → Option JsError
  putError : String → Request → Response → Option JsError
  deleteError : String → Option JsError

/-- The host operations a handler performs, in order. -/
inductive Effect where
  | fetch (request : Request)
  | cachesMatch (request : Request)
  | cachesOpen (name : String)
  | cachePut (name : String) (request : Request) (response : Response)
  | cachesKeys
  | cachesDelete (name : String)
  | skipWaiting
  | clientsClaim
deriving DecidableEq, Repr

/-- Whether an effect touches the cache storage. -/
def Effect.isStore : Effect → Bool
  | .cachesMatch _ => true
  | .cachesOpen _ => true
  | .cachePut _ _ _ => true
  | .cachesKeys => true
  | .cachesDelete _ => true
  | _ => false

/-- Whether an effect is a network fetch. -/
def Effect.isFetch : Effect → Bool
  | .fetch _ => true
  | _ => false

/-- A `cache.put(request, response)` on the cache `name` that was started and
not awaited. -/
structure PendingPut where
  name : String
  request : Request
  response : Response
deriving DecidableEq, Repr

/-- The settled result of a handler, the store at the moment it settles, what
it did, and the writes it started without awaiting them. -/
structure Outcome (α : Type) where
  result : Except JsError α
  store : CacheStorage
  trace : List Effect
  pending : List PendingPut

/-- The store once the pending writes of an outcome have been carried out on
the host `P`; a write that the host rejects stores nothing. -/
def landed {α : Type} (P : Platform) (o : Outcome α) : CacheStorage :=
  o.pending.foldl
    (fun s w =>
      match P.putError w.name w.request w.response with
      | none => cachePut s w.name w.request w.response
      | some _ => s)
    o.store

/-- The number of network fetches of a run. -/
def fetchCount (tr : List Effect) : Nat :=
  (tr.filter Effect.isFetch).length

/-! ## Constants of `sw.js` -/

def CACHE_NAME : String := "medical-ai-v1.0.0"
def STATIC_CACHE_NAME : String := "medical-ai-static-v1.0.0"
def DYNAMIC_CACHE_NAME : String := "medical-ai-dynamic-v1.0.0"

def STATIC_FILES : List String :=
  ["/", "/static/manifest.json", "/static/icons/icon-192x192.png",
   "/static/icons/icon-512x512.png"]

def NEVER_CACHE : List String :=
  ["/upload", "/api/predict", "/api/analyze"]

/-! ## Classification -/

/-- The function `shouldNeverCache(request)`. -/
def shouldNeverCache (request : Request) : Bool :=
  if request.method ≠ "GET" then true
  else NEVER_CACHE.any (fun pattern => jsIncludes request.url.pathname pattern)

/-- The function `isStaticFile(request)`. -/
def isStaticFile (request : Request) : Bool :=
  jsStartsWith request.url.pathname "/static/" ||
  jsEndsWith request.url.pathname ".css" ||
  jsEndsWith request.url.pathname ".js" ||
  jsEndsWith request.url.pathname ".png" ||
  jsEndsWith request.url.pathname ".jpg" ||
  jsEndsWith request.url.pathname ".ico"

/-- The classes of the specification's request classifier. -/
inductive Classification where
  | NeverCache
  | Static
  | Dynamic
deriving DecidableEq, Repr

/-- The extensions the specification's rule 3 names. -/
def staticExtensions : List String :=
  [".css", ".js", ".png", ".jpg", ".ico"]

/-- The classifier as the specification words it, rules 1 to 4 in order. -/
def classify (request : Request) : Classification :=
  if request.method ≠ "GET" then Classification.NeverCache
  else if ∃ pattern ∈ NEVER_CACHE, jsIncludes request.url.pathname pattern = true then
    Classification.NeverCache
  else if jsStartsWith request.url.pathname "/static/" = true ∨
      ∃ ext ∈ staticExtensions, jsEndsWith request.url.pathname ext = true then
    Classification.Static
  else Classification.Dynamic

/-! ## The offline page -/

/-- The function `getOfflinePage()`: the text of its template literal, line by line. -/
def getOfflinePage : String :=
  String.intercalate "\n" [
   "",
   "    <!DOCTYPE html>",
   "    <html lang=\"fr\">",
   "    <head>",
   "        <meta charset=\"UTF-8\">",
   "        <meta name=\"viewport\" content=\"width=device-width, initial-scale=1.0\">",
   "        <title>Medical Center - Hors ligne</title>",
   "        <style>",
   "            body \x7b",
   "                font-family: \x27Inter\x27, sans-serif;",
   "                background: linear-gradient(135deg, #667eea 0%, #764ba2 100%);",
   "                margin: 0;",
   "                padding: 20px;",
   "                min-height: 100vh;",
   "                display: flex;",
   "                align-items: center;",
   "                justify-content: center;",
   "            \x7d",
   "            .offline-container \x7b",
   "                background: white;",
   "                border-radius: 16px;",
   "                padding: 3rem;",
   "                text-align: center;",
   "                box-shadow: 0 10px 25px -5px rgba(0, 0, 0, 0.1);",
   "                max-width: 500px;",
   "            \x7d",
   "            .offline-icon \x7b",
   "                font-size: 4rem;",
   "                margin-bottom: 1rem;",
   "            \x7d",
   "            .offline-title \x7b",
   "                font-size: 2rem;",
   "                font-weight: 700;",
   "                color: #4F46E5;",
   "                margin-bottom: 1rem;",
   "            \x7d",
   "            .offline-message \x7b",
   "                color: #64748B;",
   "                line-height: 1.6;",
   "                margin-bottom: 2rem;",
   "            \x7d",
   "            .retry-button \x7b",
   "                background: #4F46E5;",
   "                color: white;",
   "                padding: 12px 24px;",
   "                border: none;",
   "                border-radius: 8px;",
   "                font-weight: 600;",
   "                cursor: pointer;",
   "                transition: background 0.3s ease;",
   "            \x7d",
   "            .retry-button:hover \x7b",
   "                background: #3730A3;",
   "            \x7d",
   "        </style>",
   "    </head>",
   "    <body>",
   "        <div class=\"offline-container\">",
   "            <div class=\"offline-icon\">📱</div>",
   "            <h1 class=\"offline-title\">Mode Hors Ligne</h1>",
   "            <p class=\"offline-message\">",
   "                Vous êtes actuellement hors ligne. Certaines fonctionnalités peuvent être limitées.",
   "                <br><br>",
   "                <strong>Note importante:</strong> L\x27analyse d\x27images nécessite une connexion internet ",
   "                pour garantir la sécurité et la précision des diagnostics.",
   "            </p>",
   "            <button class=\"retry-button\" onclick=\"window.location.reload()\">",
   "                🔄 Réessayer",
   "            </button>",
   "        </div>",
   "    </body>",
   "    </html>",
   "  "
  ]

/-- The response the strategies build from the offline page: status 200 (the
default of `new Response`) and the header `Content-Type: text/html`. -/
def offlineResponse : Response :=
  ⟨200, [("Content-Type", "text/html")], getOfflinePage⟩

/-! ## Strategies -/

/-- The `catch (error)` block of `cacheFirst`, entered with the effects `tr`
already performed. -/
def cacheFirstCatch (st : CacheStorage) (request : Request) (error : JsError)
    (tr : List Effect) : Outcome Response :=
  match cachesMatch st request with
  | some cachedResponse => ⟨.ok cachedResponse, st, tr ++ [Effect.cachesMatch request], []⟩
  | none =>
    if request.destination = "document" then
      ⟨.ok offlineResponse, st, tr ++ [Effect.cachesMatch request], []⟩
    else
      ⟨.error error, st, tr ++ [Effect.cachesMatch request], []⟩

/-- The function `cacheFirst(request)`. -/
def cacheFirst (P : Platform) (st : CacheStorage) (request : Request) : Outcome Response :=
  match cachesMatch st request with
  | some cachedResponse => ⟨.ok cachedResponse, st, [Effect.cachesMatch request], []⟩
  | none =>
    match P.fetch request with
    | .error error =>
      cacheFirstCatch st request error [Effect.cachesMatch request, Effect.fetch request]
    | .ok networkResponse =>
      if networkResponse.ok then
        match P.openError STATIC_CACHE_NAME with
        | some error =>
          cacheFirstCatch st request error
            [Effect.cachesMatch request, Effect.fetch request, Effect.cachesOpen STATIC_CACHE_NAME]
        | none =>
          ⟨.ok networkResponse, cachesOpen st STATIC_CACHE_NAME,
            [Effect.cachesMatch request, Effect.fetch request,
             Effect.cachesOpen STATIC_CACHE_NAME,
             Effect.cachePut STATIC_CACHE_NAME request networkResponse],
            [⟨STATIC_CACHE_NAME, request, networkResponse⟩]⟩
      else
        ⟨.ok networkResponse, st, [Effect.cachesMatch request, Effect.fetch request], []⟩

/-- The `catch (error)` block of `networkFirst`, entered with the effects `tr`
already performed. -/
def networkFirstCatch (st : CacheStorage) (request : Request) (error : JsError)
    (tr : List Effect) : Outcome Response :=
  match cachesMatch st request with
  | some cachedResponse => ⟨.ok cachedResponse, st, tr ++ [Effect.cachesMatch request], []⟩
  | none =>
    if request.destination = "document" then
      ⟨.ok offlineResponse, st, tr ++ [Effect.cachesMatch request], []⟩
    else
      ⟨.error error, st, tr ++ [Effect.cachesMatch request], []⟩

/-- The function `networkFirst(request)`. -/
def networkFirst (P : Platform) (st : CacheStorage) (request : Request) : Outcome Response :=
  match P.fetch request with
  | .error error => networkFirstCatch st request error [Effect.fetch request]
  | .ok networkResponse =>
    if networkResponse.ok && !shouldNeverCache request then
      match P.openError DYNAMIC_CACHE_NAME with
      | some error =>
        networkFirstCatch st request error
          [Effect.fetch request, Effect.cachesOpen DYNAMIC_CACHE_NAME]
      | none =>
        ⟨.ok networkResponse, cachesOpen st DYNAMIC_CACHE_NAME,
          [Effect.fetch request, Effect.cachesOpen DYNAMIC_CACHE_NAME,
           Effect.cachePut DYNAMIC_CACHE_NAME request networkResponse],
          [⟨DYNAMIC_CACHE_NAME, request, networkResponse⟩]⟩
    else
      ⟨.ok networkResponse, st, [Effect.fetch request], []⟩

/-- The `fetch` listener: what `event.respondWith` receives. -/
def fetchHandler (P : Platform) (st : CacheStorage) (request : Request) : Outcome Response :=
  if shouldNeverCache request then
    ⟨P.fetch request, st, [Effect.fetch request], []⟩
  else if isStaticFile request then
    cacheFirst P st request
  else
    networkFirst P st request

/-- What the specification's control flow does with a class: the direct
network fetch, CacheFirst, or NetworkFirst. -/
def dispatch (P : Platform) (st : CacheStorage) (request : Request) :
    Classification → Outcome Response
  | Classification.NeverCache => ⟨P.fetch request, st, [Effect.fetch request], []⟩
  | Classification.Static => cacheFirst P st request
  | Classification.Dynamic => networkFirst P st request

/-! ## Lifecycle -/

/-- The request `cache.addAll` makes for one URL of the preload list,
resolved against the origin of the worker. -/
def preloadRequest (P : Platform) (path : String) : Request :=
  ⟨"GET", ⟨P.origin, path, ""⟩, ""⟩

/-- The error with which `cache.addAll` rejects on a response that is not ok. -/
def badStatusError : JsError :=
  ⟨"TypeError", "Request failed"⟩

/-- The fetches of `cache.addAll`: every request is fetched; the whole fails
if one fetch fails or one response is not ok. -/
def fetchAll (P : Platform) : List Request → Except JsError (List (Request × Response))
  | [] => .ok []
  | request :: rest =>
    match P.fetch request with
    | .error error => .error error
    | .ok response =>
      if response.ok then
        match fetchAll P rest with
        | .error error => .error error
        | .ok pairs => .ok ((request, response) :: pairs)
      else .error badStatusError

/-- The call `cache.addAll(urls)` on the cache `name`: all or nothing. -/
def cacheAddAll (P : Platform) (st : CacheStorage) (name : String) (urls : List String) :
    Outcome Unit :=
  let requests := urls.map (preloadRequest P)
  let fetched := requests.map Effect.fetch
  match fetchAll P requests with
  | .error error => ⟨.error error, st, fetched, []⟩
  | .ok pairs =>
    match pairs.findSome? (fun p => P.putError name p.1 p.2) with
    | some error => ⟨.error error, st, fetched, []⟩
    | none =>
      ⟨.ok (), pairs.foldl (fun s p => cachePut s name p.1 p.2) st,
        fetched ++ pairs.map (fun p => Effect.cachePut name p.1 p.2), []⟩

/-- The promise chain of the `install` listener before its `.catch`:
`caches.open(...).then(cache => cache.addAll(STATIC_FILES)).then(() => self.skipWaiting())`. -/
def installChain (P : Platform) (st : CacheStorage) : Outcome Unit :=
  match P.openError STATIC_CACHE_NAME with
  | some error => ⟨.error error, st, [Effect.cachesOpen STATIC_CACHE_NAME], []⟩
  | none =>
    let added := cacheAddAll P (cachesOpen st STATIC_CACHE_NAME) STATIC_CACHE_NAME STATIC_FILES
    match added.result with
    | .error error =>
      ⟨.error error, added.store, Effect.cachesOpen STATIC_CACHE_NAME :: added.trace, []⟩
    | .ok _ =>
      ⟨.ok (), added.store,
        Effect.cachesOpen STATIC_CACHE_NAME :: added.trace ++ [Effect.skipWaiting], []⟩

/-- A trailing `.catch(error => { console.error(..., error); })`: the handler
logs and returns, so the resulting promise is fulfilled. -/
def catchAndLog (o : Outcome Unit) : Outcome Unit :=
  match o.result with
  | .ok _ => o
  | .error _ => ⟨.ok (), o.store, o.trace, o.pending⟩

/-- The `install` listener: the promise handed to `event.waitUntil`. -/
def installHandler (P : Platform) (st : CacheStorage) : Outcome Unit :=
  catchAndLog (installChain P st)

/-- One element of `cacheNames.map(cacheName => { if (cond) return caches.delete(cacheName); })`
under `Promise.all`: the deletion is started when the condition holds; a
rejected deletion makes the whole reject. -/
def deleteStep (P : Platform) (cond : String → Bool) (acc : Outcome Unit) (cacheName : String) :
    Outcome Unit :=
  if cond cacheName then
    match P.deleteError cacheName with
    | none =>
      ⟨acc.result, cachesDelete acc.store cacheName,
        acc.trace ++ [Effect.cachesDelete cacheName], acc.pending⟩
    | some error =>
      ⟨(match acc.result with
        | .ok _ => .error error
        | .error first => .error first),
        acc.store, acc.trace ++ [Effect.cachesDelete cacheName], acc.pending⟩
  else acc

/-- The `Promise.all(cacheNames.map(...))` over the names `caches.keys()` gave. -/
def deleteAll (P : Platform) (cond : String → Bool) (st : CacheStorage) : Outcome Unit :=
  (cachesKeys st).foldl (deleteStep P cond) ⟨.ok (), st, [Effect.cachesKeys], []⟩

/-- The condition of the `activate` listener under which a cache is deleted. -/
def isOldCache (cacheName : String) : Bool :=
  decide (cacheName ≠ STATIC_CACHE_NAME) &&
  decide (cacheName ≠ DYNAMIC_CACHE_NAME) &&
  jsStartsWith cacheName "medical-ai-"

/-- The promise chain of the `activate` listener before its `.catch`. -/
def activateChain (P : Platform) (st : CacheStorage) : Outcome Unit :=
  let deleted := deleteAll P isOldCache st
  match deleted.result with
  | .error error => ⟨.error error, deleted.store, deleted.trace, []⟩
  | .ok _ => ⟨.ok (), deleted.store, deleted.trace ++ [Effect.clientsClaim], []⟩

/-- The `activate` listener: the promise handed to `event.waitUntil`. -/
def activateHandler (P : Platform) (st : CacheStorage) : Outcome Unit :=
  catchAndLog (activateChain P st)

/-! ## Control channel -/

/-- The condition of `clearAllCaches` under which a cache is deleted. -/
def isMedicalCache (cacheName : String) : Bool :=
  jsStartsWith cacheName "medical-ai-"

/-- The function `clearAllCaches()`: its `try` block, and the `catch` that logs. -/
def clearAllCaches (P : Platform) (st : CacheStorage) : Outcome Unit :=
  catchAndLog (deleteAll P isMedicalCache st)

/-- The `message` listener, on `event.data.type` (absent when there is no data).
The listener returns nothing; the outcome is that of the work it starts, run
to its end. -/
def messageHandler (P : Platform) (st : CacheStorage) (type : Option String) : Outcome Unit :=
  let skipped : Outcome Unit :=
    if type = some "SKIP_WAITING" then ⟨.ok (), st, [Effect.skipWaiting], []⟩
    else ⟨.ok (), st, [], []⟩
  if type = some "CLEAR_CACHE" then
    let cleared := clearAllCaches P skipped.store
    ⟨.ok (), cleared.store, skipped.trace ++ cleared.trace, []⟩
  else skipped

/-! ## Invariant of the store -/

/-- Every stored response is ok. -/
def StoreAllOk (st : CacheStorage) : Prop :=
  ∀ c ∈ st, ∀ e ∈ c.entries, e.2.ok = true

instance (st : CacheStorage) : Decidable (StoreAllOk st) := by
  unfold StoreAllOk
  infer_instance

/-! ## Concrete hosts, requests and stores -/

/-- The error of a fetch without network. -/
def failedFetch : JsError := ⟨"TypeError", "Failed to fetch"⟩

/-- The error of a store operation without quota left. -/
def quotaError : JsError := ⟨"QuotaExceededError", "Quota exceeded"⟩

/-- A fresh ok response of the network. -/
def okResponse : Response := ⟨200, [("Content-Type", "image/png")], "payload"⟩

/-- An older ok response, as a cache may hold it. -/
def staleResponse : Response := ⟨200, [("Content-Type", "image/png")], "stale payload"⟩

/-- A response that is not ok. -/
def notFoundResponse : Response := ⟨404, [], "not found"⟩

/-- A host without network; its store works. -/
def offlineHost : Platform :=
  ⟨"https://medical.example", fun _ => .error failedFetch, fun _ => none, fun _ _ _ => none,
    fun _ => none⟩

/-- A host whose network answers every request with the fresh ok response; its
store works. -/
def onlineHost : Platform :=
  ⟨"https://medical.example", fun _ => .ok okResponse, fun _ => none, fun _ _ _ => none,
    fun _ => none⟩

/-- A host whose network answers every request with a 404; its store works. -/
def notFoundHost : Platform :=
  ⟨"https://medical.example", fun _ => .ok notFoundResponse, fun _ => none, fun _ _ _ => none,
    fun _ => none⟩

/-- A host with network on which `caches.open` rejects. -/
def quotaHost : Platform :=
  ⟨"https://medical.example", fun _ => .ok okResponse, fun _ => some quotaError,
    fun _ _ _ => none, fun _ => none⟩

/-- A host with network on which `cache.put` rejects. -/
def fullDiskHost : Platform :=
  ⟨"https://medical.example", fun _ => .ok okResponse, fun _ => none,
    fun _ _ _ => some quotaError, fun _ => none⟩

def uploadRequest : Request :=
  ⟨"POST", ⟨"https://medical.example", "/upload", ""⟩, ""⟩

def dashboardRequest : Request :=
  ⟨"GET", ⟨"https://medical.example", "/dashboard", ""⟩, "document"⟩

def statusRequest : Request :=
  ⟨"GET", ⟨"https://medical.example", "/api/status", ""⟩, ""⟩

def iconRequest : Request :=
  ⟨"GET", ⟨"https://medical.example", "/static/icons/icon-192x192.png", ""⟩, "image"⟩

def nestedUploadRequest : Request :=
  ⟨"GET", ⟨"https://medical.example", "/static/upload/x.png", ""⟩, "image"⟩

/-- An ok response with status 206, which the host's `cache.put` refuses. -/
def partialResponse : Response := ⟨206, [("Content-Range", "bytes 0-99/200")], "part"⟩

/-- The error with which `cache.put` rejects a response of status 206. -/
def partialError : JsError := ⟨"TypeError", "Partial response (status code 206) is unsupported"⟩

/-- A host whose network answers every request with a 206 and whose
`cache.put` rejects such a response. -/
def partialHost : Platform :=
  ⟨"https://medical.example", fun _ => .ok partialResponse, fun _ => none,
    fun _ _ response => if response.status = 206 then some partialError else none,
    fun _ => none⟩

/-- A store whose only cache is the dynamic one, holding an entry for the icon. -/
def dynamicOnlyStore : CacheStorage :=
  [⟨DYNAMIC_CACHE_NAME, [(iconRequest.key, staleResponse)]⟩]

/-- A store whose only cache belongs to another application of the origin. -/
def foreignStore : CacheStorage :=
  [⟨"streamlit-cache-v1", [(iconRequest.key, okResponse)]⟩]

/-- A store with a cache of an older version, the current static cache and a
cache of another application. -/
def mixedStore : CacheStorage :=
  [⟨"medical-ai-static-v0.9.0", []⟩, ⟨STATIC_CACHE_NAME, []⟩, ⟨"streamlit-cache-v1", []⟩]

/-- A store whose static and dynamic caches both hold entries. -/
def currentStore : CacheStorage :=
  [⟨STATIC_CACHE_NAME, [(iconRequest.key, okResponse)]⟩,
   ⟨DYNAMIC_CACHE_NAME, [(dashboardRequest.key, okResponse)]⟩]

/-! ## Lemmas on the classification -/

theorem shouldNeverCache_iff (request : Request) :
    shouldNeverCache request = true ↔
      (request.method ≠ "GET" ∨
        ∃ pattern ∈ NEVER_CACHE, jsIncludes request.url.pathname pattern = true) := by
  unfold shouldNeverCache
  by_cases hm : request.method = "GET"
  · simp [hm, List.any_eq_true]
  · simp [hm]

theorem isStaticFile_iff (request : Request) :
    isStaticFile request = true ↔
      (jsStartsWith request.url.pathname "/static/" = true ∨
        ∃ ext ∈ staticExtensions, jsEndsWith request.url.pathname ext = true) := by
  simp [isStaticFile, staticExtensions, or_assoc]

theorem fetchHandler_eq_dispatch (P : Platform) (st : CacheStorage) (request : Request) :
    fetchHandler P st request = dispatch P st request (classify request) := by
  unfold fetchHandler classify
  by_cases hm : request.method = "GET"
  · by_cases hp : ∃ pattern ∈ NEVER_CACHE, jsIncludes request.url.pathname pattern = true
    · have hs : shouldNeverCache request = true := (shouldNeverCache_iff request).2 (Or.inr hp)
      simp only [hs, if_true, hm, ne_eq, not_true_eq_false, if_false, hp, dispatch]
    · have hs : shouldNeverCache request = false := by
        rw [Bool.eq_false_iff]; intro h
        rcases (shouldNeverCache_iff request).1 h with h1 | h1
        · exact h1 hm
        · exact hp h1
      by_cases hst : isStaticFile request = true
      · have := (isStaticFile_iff request).1 hst
        simp only [hs, hm, ne_eq, not_true_eq_false, if_false, hp, hst, if_true, this, dispatch]
        simp
      · have hn := mt (isStaticFile_iff request).2 hst
        simp only [hs, hm, ne_eq, not_true_eq_false, if_false, hp, hst, hn, dispatch]
        simp
  · have hs : shouldNeverCache request = true := (shouldNeverCache_iff request).2 (Or.inl hm)
    simp [hs, hm, dispatch]

/-! ## Lemmas on the store -/

theorem lookup_put_same (c : Cache) (request : Request) (response : Response) :
    (c.put request response).lookup request = some response := by
  have hnone : List.find? (fun e : RequestKey × Response => decide (e.1 = request.key))
      (c.entries.filter (fun e => !decide (e.1 = request.key))) = none := by
    rw [List.find?_eq_none]
    intro e he
    have := (List.mem_filter.1 he).2
    simpa using this
  simp [Cache.lookup, Cache.put, List.find?_append, hnone]

theorem cachesMatch_eq_none_iff (st : CacheStorage) (request : Request) :
    cachesMatch st request = none ↔ ∀ c ∈ st, c.lookup request = none := by
  simp [cachesMatch, List.findSome?_eq_none_iff]

theorem cachesOpen_has_name (st : CacheStorage) (name : String) :
    ∃ c ∈ cachesOpen st name, c.name = name := by
  unfold cachesOpen
  by_cases h : st.any (fun c => decide (c.name = name)) = true
  · rw [if_pos h]
    rcases List.any_eq_true.1 h with ⟨c, hc, hn⟩
    exact ⟨c, hc, by simpa using hn⟩
  · rw [if_neg h]
    exact ⟨⟨name, []⟩, by simp, rfl⟩

theorem cachesOpen_lookup_none (st : CacheStorage) (name : String) (request : Request)
    (h : ∀ c ∈ st, c.lookup request = none) :
    ∀ c ∈ cachesOpen st name, c.lookup request = none := by
  unfold cachesOpen
  split
  · exact h
  · intro c hc
    rcases List.mem_append.1 hc with hc | hc
    · exact h c hc
    · have : c = ⟨name, []⟩ := by simpa using hc
      subst this
      rfl

theorem cachesMatch_cachePut (l : CacheStorage) (name : String) (request : Request)
    (response : Response) (hnone : ∀ c ∈ l, c.lookup request = none)
    (hname : ∃ c ∈ l, c.name = name) :
    cachesMatch (cachePut l name request response) request = some response := by
  induction l with
  | nil => rcases hname with ⟨c, hc, _⟩; cases hc
  | cons a l ih =>
    by_cases ha : a.name = name
    · simp [cachesMatch, cachePut, ha, lookup_put_same]
    · have hl : ∃ c ∈ l, c.name = name := by
        rcases hname with ⟨c, hc, hn⟩
        rcases List.mem_cons.1 hc with rfl | hc
        · exact absurd hn ha
        · exact ⟨c, hc, hn⟩
      have h1 := ih (fun c hc => hnone c (List.mem_cons_of_mem _ hc)) hl
      have h2 := hnone a (List.mem_cons_self _ _)
      simp only [cachesMatch, cachePut] at h1 ⊢
      simp [ha, h2, h1]

theorem namespaceLookup_cachePut (l : CacheStorage) (name : String) (request : Request)
    (response : Response) (hname : ∃ c ∈ l, c.name = name) :
    namespaceLookup (cachePut l name request response) name request = some response := by
  induction l with
  | nil => rcases hname with ⟨c, hc, _⟩; cases hc
  | cons a l ih =>
    by_cases ha : a.name = name
    · have hp : (a.put request response).name = name := ha
      simp [namespaceLookup, cachePut, ha, hp, lookup_put_same]
    · have hl : ∃ c ∈ l, c.name = name := by
        rcases hname with ⟨c, hc, hn⟩
        rcases List.mem_cons.1 hc with rfl | hc
        · exact absurd hn ha
        · exact ⟨c, hc, hn⟩
      have h1 := ih hl
      simp only [namespaceLookup, cachePut, List.map_cons, List.find?_cons] at h1 ⊢
      rw [if_neg ha]
      have hd : decide (a.name = name) = false := by simpa using ha
      rw [hd]
      exact h1

theorem storeAllOk_cachesOpen (st : CacheStorage) (name : String) (h : StoreAllOk st) :
    StoreAllOk (cachesOpen st name) := by
  unfold cachesOpen
  split
  · exact h
  · intro c hc e he
    rcases List.mem_append.1 hc with hc | hc
    · exact h c hc e he
    · have : c = ⟨name, []⟩ := by simpa using hc
      subst this
      cases he

theorem storeAllOk_cachePut (st : CacheStorage) (name : String) (request : Request)
    (response : Response) (h : StoreAllOk st) (hok : response.ok = true) :
    StoreAllOk (cachePut st name request response) := by
  intro c hc e he
  rcases List.mem_map.1 hc with ⟨c0, hc0, rfl⟩
  by_cases hn : c0.name = name
  · rw [if_pos hn] at he
    rcases List.mem_append.1 he with he | he
    · exact h c0 hc0 e (List.mem_filter.1 he).1
    · have : e = (request.key, response) := by simpa using he
      subst this
      exact hok
  · rw [if_neg hn] at he
    exact h c0 hc0 e he

/-! ## Lemmas on the strategies and the lifecycle -/

theorem cacheFirstCatch_store (st : CacheStorage) (request : Request) (error : JsError)
    (tr : List Effect) : (cacheFirstCatch st request error tr).store = st := by
  unfold cacheFirstCatch
  split
  · rfl
  · split <;> rfl

theorem cacheFirstCatch_trace (st : CacheStorage) (request : Request) (error : JsError)
    (tr : List Effect) :
    (cacheFirstCatch st request error tr).trace = tr ++ [Effect.cachesMatch request] := by
  unfold cacheFirstCatch
  split
  · rfl
  · split <;> rfl

theorem cacheFirstCatch_pending (st : CacheStorage) (request : Request) (error : JsError)
    (tr : List Effect) : (cacheFirstCatch st request error tr).pending = [] := by
  unfold cacheFirstCatch
  split
  · rfl
  · split <;> rfl

theorem networkFirstCatch_pending (st : CacheStorage) (request : Request) (error : JsError)
    (tr : List Effect) : (networkFirstCatch st request error tr).pending = [] := by
  unfold networkFirstCatch
  split
  · rfl
  · split <;> rfl

theorem networkFirstCatch_store (st : CacheStorage) (request : Request) (error : JsError)
    (tr : List Effect) : (networkFirstCatch st request error tr).store = st := by
  unfold networkFirstCatch
  split
  · rfl
  · split <;> rfl

theorem cacheFirst_cases (P : Platform) (st : CacheStorage) (request : Request) :
    ((cacheFirst P st request).store = st ∧ (cacheFirst P st request).pending = []) ∨
    ∃ r, r.ok = true ∧ (cacheFirst P st request).store = cachesOpen st STATIC_CACHE_NAME ∧
      (cacheFirst P st request).pending = [⟨STATIC_CACHE_NAME, request, r⟩] := by
  unfold cacheFirst
  split
  · exact Or.inl ⟨rfl, rfl⟩
  · split
    · exact Or.inl ⟨cacheFirstCatch_store _ _ _ _, cacheFirstCatch_pending _ _ _ _⟩
    · rename_i networkResponse _
      by_cases hok : networkResponse.ok = true
      · rw [if_pos hok]
        split
        · exact Or.inl ⟨cacheFirstCatch_store _ _ _ _, cacheFirstCatch_pending _ _ _ _⟩
        · exact Or.inr ⟨networkResponse, hok, rfl, rfl⟩
      · rw [if_neg hok]; exact Or.inl ⟨rfl, rfl⟩

theorem networkFirst_cases (P : Platform) (st : CacheStorage) (request : Request) :
    ((networkFirst P st request).store = st ∧ (networkFirst P st request).pending = []) ∨
    ∃ r, r.ok = true ∧ (networkFirst P st request).store = cachesOpen st DYNAMIC_CACHE_NAME ∧
      (networkFirst P st request).pending = [⟨DYNAMIC_CACHE_NAME, request, r⟩] := by
  unfold networkFirst
  split
  · exact Or.inl ⟨networkFirstCatch_store _ _ _ _, networkFirstCatch_pending _ _ _ _⟩
  · rename_i networkResponse _
    by_cases hok : (networkResponse.ok && !shouldNeverCache request) = true
    · rw [if_pos hok]
      have hok2 : networkResponse.ok = true := by
        simp only [Bool.and_eq_true] at hok; exact hok.1
      split
      · exact Or.inl ⟨networkFirstCatch_store _ _ _ _, networkFirstCatch_pending _ _ _ _⟩
      · exact Or.inr ⟨networkResponse, hok2, rfl, rfl⟩
    · rw [if_neg hok]; exact Or.inl ⟨rfl, rfl⟩

theorem cacheFirst_hit (P : Platform) (st : CacheStorage) (request : Request) (cached : Response)
    (h : cachesMatch st request = some cached) :
    cacheFirst P st request = ⟨.ok cached, st, [Effect.cachesMatch request], []⟩ := by
  simp [cacheFirst, h]

theorem catchAndLog_result (o : Outcome Unit) : (catchAndLog o).result = .ok () := by
  unfold catchAndLog
  split
  · rename_i u h; exact h
  · rfl

theorem catchAndLog_store (o : Outcome Unit) : (catchAndLog o).store = o.store := by
  unfold catchAndLog
  split <;> rfl

theorem catchAndLog_trace (o : Outcome Unit) : (catchAndLog o).trace = o.trace := by
  unfold catchAndLog
  split <;> rfl

theorem fetchAll_error (P : Platform) (requests : List Request)
    (h : ∃ q ∈ requests, ∀ r, P.fetch q = .ok r → r.ok = false) :
    ∃ e, fetchAll P requests = .error e := by
  induction requests with
  | nil => rcases h with ⟨q, hq, _⟩; cases hq
  | cons a l ih =>
    unfold fetchAll
    cases hf : P.fetch a with
    | error e => exact ⟨e, rfl⟩
    | ok response =>
      by_cases hok : response.ok = true
      · have hl : ∃ q ∈ l, ∀ r, P.fetch q = .ok r → r.ok = false := by
          rcases h with ⟨q, hq, hbad⟩
          rcases List.mem_cons.1 hq with rfl | hq
          · have := hbad response hf
            rw [hok] at this; cases this
          · exact ⟨q, hq, hbad⟩
        rcases ih hl with ⟨e, he⟩
        exact ⟨e, by simp [hok, he]⟩
      · exact ⟨badStatusError, by simp [hok]⟩

theorem deleteAll_fold (P : Platform) (cond : String → Bool)
    (hdel : ∀ n, P.deleteError n = none) (names : List String) (acc : Outcome Unit) :
    (names.foldl (deleteStep P cond) acc).store =
        acc.store.filter (fun c => !(decide (c.name ∈ names) && cond c.name)) ∧
    (names.foldl (deleteStep P cond) acc).result = acc.result := by
  induction names generalizing acc with
  | nil => simp
  | cons n rest ih =>
    rw [List.foldl_cons]
    obtain ⟨h1, h2⟩ := ih (deleteStep P cond acc n)
    rw [h1, h2]
    unfold deleteStep
    by_cases hc : cond n = true
    · rw [if_pos hc, hdel n]
      refine ⟨?_, rfl⟩
      simp only [cachesDelete, List.filter_filter]
      apply List.filter_congr
      intro c _
      by_cases hn : c.name = n
      · simp [hn, hc]
      · simp [hn]
    · rw [if_neg hc]
      refine ⟨?_, rfl⟩
      apply List.filter_congr
      intro c _
      by_cases hn : c.name = n
      · simp [hn, hc]
      · simp [hn]

theorem deleteAll_store (P : Platform) (cond : String → Bool)
    (hdel : ∀ n, P.deleteError n = none) (st : CacheStorage) :
    (deleteAll P cond st).store = st.filter (fun c => !cond c.name) ∧
    (deleteAll P cond st).result = .ok () := by
  unfold deleteAll
  obtain ⟨h1, h2⟩ := deleteAll_fold P cond hdel (cachesKeys st) ⟨.ok (), st, [Effect.cachesKeys], []⟩
  refine ⟨?_, h2⟩
  rw [h1]
  apply List.filter_congr
  intro c hc
  have : c.name ∈ cachesKeys st := List.mem_map.2 ⟨c, hc, rfl⟩
  simp [this]

theorem deleteAll_fold_idle (P : Platform) (cond : String → Bool) (names : List String)
    (hno : ∀ n ∈ names, cond n = false) (acc : Outcome Unit) :
    names.foldl (deleteStep P cond) acc = acc := by
  induction names generalizing acc with
  | nil => rfl
  | cons n rest ih =>
    rw [List.foldl_cons]
    have hn : cond n = false := hno n (List.mem_cons_self _ _)
    have : deleteStep P cond acc n = acc := by simp [deleteStep, hn]
    rw [this]
    exact ih (fun m hm => hno m (List.mem_cons_of_mem _ hm)) acc

/-! ## The fetch handler -/

/-- C1: a request that is not a GET, or whose path contains one of the
never-cache patterns, is answered with exactly the outcome of the direct
network fetch, whatever the store and the network: the store is left as it
was, the only host operation performed is the fetch (no store operation, no
write left pending), and the answer is the same for every store. -/
theorem fetch_never_cache_bypasses_store (P : Platform) (st : CacheStorage) (request : Request)
    (h : request.method ≠ "GET" ∨
      ∃ pattern ∈ NEVER_CACHE, jsIncludes request.url.pathname pattern = true) :
    (fetchHandler P st request).result = P.fetch request ∧
    (fetchHandler P st request).store = st ∧
    (fetchHandler P st request).trace = [Effect.fetch request] ∧
    (fetchHandler P st request).pending = [] ∧
    (∀ e ∈ (fetchHandler P st request).trace, e.isStore = false) ∧
    ∀ st2 : CacheStorage,
      (fetchHandler P st2 request).result = (fetchHandler P st request).result := by
  have hs : shouldNeverCache request = true := (shouldNeverCache_iff request).2 h
  simp [fetchHandler, hs, Effect.isStore]

/-- Scenario C: a POST to `/upload` with the network answering 200 is returned
unchanged and the empty store stays empty. -/
theorem fetch_never_cache_bypasses_store_witness :
    uploadRequest.method ≠ "GET" ∧
    (fetchHandler onlineHost [] uploadRequest).result = .ok okResponse ∧
    (fetchHandler onlineHost [] uploadRequest).store = [] :=
  ⟨by decide,
   (fetch_never_cache_bypasses_store onlineHost [] uploadRequest (Or.inl (by decide))).1,
   (fetch_never_cache_bypasses_store onlineHost [] uploadRequest (Or.inl (by decide))).2.1⟩

/-- C2: for every request the fetch handler does what the specification's
control flow does with the class that the four rules of the classifier, taken
in order, give to the request (direct fetch for NeverCache, `cacheFirst` for
Static, `networkFirst` for Dynamic); a never-cache pattern wins over the
static prefix and extension: GET `/static/upload/x.png` is NeverCache and is
fetched directly. -/
theorem fetch_routes_by_classification (P : Platform) (st : CacheStorage) (request : Request) :
    fetchHandler P st request = dispatch P st request (classify request) ∧
    classify nestedUploadRequest = Classification.NeverCache ∧
    fetchHandler P st nestedUploadRequest =
      ⟨P.fetch nestedUploadRequest, st, [Effect.fetch nestedUploadRequest], []⟩ := by
  refine ⟨fetchHandler_eq_dispatch P st request, by decide, ?_⟩
  have hs : shouldNeverCache nestedUploadRequest = true := by decide
  simp [fetchHandler, hs]

/-! ## The strategies -/

/-- The store once the write of `cacheFirst` has landed: for a request without
entry in the store, an ok response `r` of the network and a host that accepts
the write, `r` is the entry of the request in the static cache, and a
`cacheFirst` on that store, on any host `P2`, returns `r` without a fetch. -/
theorem cacheFirst_hit_once_landed (P P2 : Platform) (st : CacheStorage) (request : Request)
    (r : Response)
    (hmiss : cachesMatch st request = none)
    (hnet : P.fetch request = .ok r) (hok : r.ok = true)
    (hopen : P.openError STATIC_CACHE_NAME = none)
    (hput : P.putError STATIC_CACHE_NAME request r = none) :
    namespaceLookup (landed P (cacheFirst P st request)) STATIC_CACHE_NAME request = some r ∧
    (cacheFirst P2 (landed P (cacheFirst P st request)) request).result = .ok r ∧
    fetchCount (cacheFirst P2 (landed P (cacheFirst P st request)) request).trace = 0 := by
  have hland : landed P (cacheFirst P st request) =
      cachePut (cachesOpen st STATIC_CACHE_NAME) STATIC_CACHE_NAME request r := by
    simp [cacheFirst, hmiss, hnet, hok, hopen, landed, hput]
  have hnone := (cachesMatch_eq_none_iff st request).1 hmiss
  have hhit : cachesMatch (cachePut (cachesOpen st STATIC_CACHE_NAME) STATIC_CACHE_NAME request r)
      request = some r :=
    cachesMatch_cachePut _ _ _ _ (cachesOpen_lookup_none st _ request hnone)
      (cachesOpen_has_name st _)
  rw [hland, cacheFirst_hit P2 _ request r hhit]
  exact ⟨namespaceLookup_cachePut _ _ _ _ (cachesOpen_has_name st _), rfl,
    by simp [fetchCount, Effect.isFetch]⟩

/-- C3, at the icon of Scenario B on the empty store. With the network
answering 200, `cacheFirst` returns the response while its `cache.put` is
still pending: the static cache holds no entry when the promise settles, so a
second `cacheFirst` made at once fetches again (two fetches for two calls),
and without network it fails instead of returning the 200. With the network
answering 206, an ok response that the host's `cache.put` refuses, nothing is
stored even after the write has been tried, and the next call fetches again. -/
theorem cacheFirst_returns_before_write_lands :
    classify iconRequest = Classification.Static ∧
    cachesMatch [] iconRequest = none ∧
    onlineHost.fetch iconRequest = .ok okResponse ∧
    okResponse.ok = true ∧
    (cacheFirst onlineHost [] iconRequest).result = .ok okResponse ∧
    (cacheFirst onlineHost [] iconRequest).pending =
      [⟨STATIC_CACHE_NAME, iconRequest, okResponse⟩] ∧
    namespaceLookup (cacheFirst onlineHost [] iconRequest).store STATIC_CACHE_NAME iconRequest =
      none ∧
    fetchCount (cacheFirst onlineHost [] iconRequest).trace = 1 ∧
    fetchCount (cacheFirst onlineHost (cacheFirst onlineHost [] iconRequest).store
      iconRequest).trace = 1 ∧
    (cacheFirst offlineHost (cacheFirst onlineHost [] iconRequest).store iconRequest).result =
      .error failedFetch ∧
    partialHost.fetch iconRequest = .ok partialResponse ∧
    partialResponse.ok = true ∧
    (cacheFirst partialHost [] iconRequest).result = .ok partialResponse ∧
    namespaceLookup (landed partialHost (cacheFirst partialHost [] iconRequest))
      STATIC_CACHE_NAME iconRequest = none ∧
    fetchCount (cacheFirst partialHost (landed partialHost (cacheFirst partialHost [] iconRequest))
      iconRequest).trace = 1 := by
  refine ⟨by decide, rfl, rfl, by decide, by rfl, by rfl, by rfl, by rfl, by rfl, by rfl,
    rfl, by decide, by rfl, by rfl, by rfl⟩

/-- C4: when the network fetch of a request fails, `networkFirst` returns the
offline document (body `getOfflinePage`, header `Content-Type: text/html`) if
the store holds no entry and the destination is `document`, fails with the
very same error if the store holds no entry and the destination is anything
else, and returns the stored entry if there is one. -/
theorem networkFirst_on_network_failure (P : Platform) (st : CacheStorage) (request : Request)
    (error : JsError) (hnet : P.fetch request = .error error) :
    (cachesMatch st request = none → request.destination = "document" →
      (networkFirst P st request).result = .ok offlineResponse) ∧
    (cachesMatch st request = none → request.destination ≠ "document" →
      (networkFirst P st request).result = .error error) ∧
    (∀ cached, cachesMatch st request = some cached →
      (networkFirst P st request).result = .ok cached) ∧
    offlineResponse.body = getOfflinePage ∧
    offlineResponse.headers = [("Content-Type", "text/html")] := by
  refine ⟨?_, ?_, ?_, rfl, rfl⟩
  · intro hc hd
    simp [networkFirst, hnet, networkFirstCatch, hc, hd]
  · intro hc hd
    simp [networkFirst, hnet, networkFirstCatch, hc, hd]
  · intro cached hc
    simp [networkFirst, hnet, networkFirstCatch, hc]

/-- Scenario E: GET `/dashboard` as a document, without network and without
entry, gets the offline document. -/
theorem networkFirst_on_network_failure_witness :
    offlineHost.fetch dashboardRequest = .error failedFetch ∧
    cachesMatch [] dashboardRequest = none ∧
    dashboardRequest.destination = "document" ∧
    (networkFirst offlineHost [] dashboardRequest).result = .ok offlineResponse :=
  ⟨rfl, rfl, rfl,
   (networkFirst_on_network_failure offlineHost [] dashboardRequest failedFetch rfl).1 rfl rfl⟩

/-- C7, at a host on which `caches.open` rejects: the network answers the
document request `/dashboard` with an ok response, and `networkFirst` returns
the offline document instead of it; for the request `/api/status`, which is
no document, it fails with the error of the store. When only the write
`cache.put` rejects, the response is returned. -/
theorem networkFirst_open_failure_loses_response :
    quotaHost.fetch dashboardRequest = .ok okResponse ∧
    okResponse.ok = true ∧
    (networkFirst quotaHost [] dashboardRequest).result = .ok offlineResponse ∧
    offlineResponse ≠ okResponse ∧
    quotaHost.fetch statusRequest = .ok okResponse ∧
    (networkFirst quotaHost [] statusRequest).result = .error quotaError ∧
    (networkFirst fullDiskHost [] dashboardRequest).result = .ok okResponse := by
  refine ⟨rfl, by decide, by rfl, ?_, rfl, by rfl, by rfl⟩
  intro h
  have := congrArg Response.headers h
  revert this
  decide

/-- C8: on a store whose responses are all ok, the store that `cacheFirst` or
`networkFirst` leaves holds only ok responses, both when the promise settles
and once the pending writes have landed on any host `P2`, and every write
they start carries an ok response. When the network returns a response that
is not ok, both leave the store unchanged and start no write; `networkFirst`
returns that response, and so does `cacheFirst` for every request without
entry in the store; for a request with an entry `cacheFirst` does not ask the
network at all and returns the entry. -/
theorem strategies_store_only_ok (P P2 : Platform) (st : CacheStorage) (request : Request)
    (hall : StoreAllOk st) :
    StoreAllOk (cacheFirst P st request).store ∧
    StoreAllOk (landed P2 (cacheFirst P st request)) ∧
    StoreAllOk (networkFirst P st request).store ∧
    StoreAllOk (landed P2 (networkFirst P st request)) ∧
    (∀ w ∈ (cacheFirst P st request).pending ++ (networkFirst P st request).pending,
      w.response.ok = true) ∧
    ∀ r, P.fetch request = .ok r → r.ok = false →
      (networkFirst P st request).result = .ok r ∧
      (networkFirst P st request).store = st ∧
      (networkFirst P st request).pending = [] ∧
      (cacheFirst P st request).store = st ∧
      (cacheFirst P st request).pending = [] ∧
      (cachesMatch st request = none → (cacheFirst P st request).result = .ok r) ∧
      (∀ cached, cachesMatch st request = some cached →
        (cacheFirst P st request).result = .ok cached ∧
        fetchCount (cacheFirst P st request).trace = 0) := by
  have hcf := cacheFirst_cases P st request
  have hnf := networkFirst_cases P st request
  have hopenS := storeAllOk_cachesOpen st STATIC_CACHE_NAME hall
  have hopenD := storeAllOk_cachesOpen st DYNAMIC_CACHE_NAME hall
  refine ⟨?_, ?_, ?_, ?_, ?_, ?_⟩
  · rcases hcf with ⟨hs, _⟩ | ⟨r, hok, hs, _⟩
    · rw [hs]; exact hall
    · rw [hs]; exact hopenS
  · rcases hcf with ⟨hs, hp⟩ | ⟨r, hok, hs, hp⟩
    · simp only [landed, hs, hp, List.foldl_nil]; exact hall
    · simp only [landed, hs, hp, List.foldl_cons, List.foldl_nil]
      split
      · exact storeAllOk_cachePut _ _ _ _ hopenS hok
      · exact hopenS
  · rcases hnf with ⟨hs, _⟩ | ⟨r, hok, hs, _⟩
    · rw [hs]; exact hall
    · rw [hs]; exact hopenD
  · rcases hnf with ⟨hs, hp⟩ | ⟨r, hok, hs, hp⟩
    · simp only [landed, hs, hp, List.foldl_nil]; exact hall
    · simp only [landed, hs, hp, List.foldl_cons, List.foldl_nil]
      split
      · exact storeAllOk_cachePut _ _ _ _ hopenD hok
      · exact hopenD
  · intro w hw
    rcases List.mem_append.1 hw with hw | hw
    · rcases hcf with ⟨_, hp⟩ | ⟨r, hok, _, hp⟩
      · rw [hp] at hw; cases hw
      · rw [hp] at hw
        have : w = ⟨STATIC_CACHE_NAME, request, r⟩ := by simpa using hw
        rw [this]; exact hok
    · rcases hnf with ⟨_, hp⟩ | ⟨r, hok, _, hp⟩
      · rw [hp] at hw; cases hw
      · rw [hp] at hw
        have : w = ⟨DYNAMIC_CACHE_NAME, request, r⟩ := by simpa using hw
        rw [this]; exact hok
  · intro r hnet hok
    refine ⟨by simp [networkFirst, hnet, hok], by simp [networkFirst, hnet, hok],
      by simp [networkFirst, hnet, hok], ?_, ?_, ?_, ?_⟩
    · cases hc : cachesMatch st request with
      | some cached => rw [cacheFirst_hit P st request cached hc]
      | none => simp [cacheFirst, hc, hnet, hok]
    · cases hc : cachesMatch st request with
      | some cached => rw [cacheFirst_hit P st request cached hc]
      | none => simp [cacheFirst, hc, hnet, hok]
    · intro hc
      simp [cacheFirst, hc, hnet, hok]
    · intro cached hc
      rw [cacheFirst_hit P st request cached hc]
      simp [fetchCount, Effect.isFetch]

/-- On a store that holds ok entries and none for `/api/status`, a 404 from
the network is returned by both strategies and nothing is stored or left
pending. -/
theorem strategies_store_only_ok_witness :
    StoreAllOk currentStore ∧
    cachesMatch currentStore statusRequest = none ∧
    notFoundHost.fetch statusRequest = .ok notFoundResponse ∧
    notFoundResponse.ok = false ∧
    (cacheFirst notFoundHost currentStore statusRequest).result = .ok notFoundResponse ∧
    (cacheFirst notFoundHost currentStore statusRequest).store = currentStore ∧
    (cacheFirst notFoundHost currentStore statusRequest).pending = [] ∧
    (networkFirst notFoundHost currentStore statusRequest).result = .ok notFoundResponse ∧
    (networkFirst notFoundHost currentStore statusRequest).store = currentStore ∧
    StoreAllOk (landed onlineHost (cacheFirst notFoundHost currentStore statusRequest)) :=
  have hall : StoreAllOk currentStore := by decide
  have hmiss : cachesMatch currentStore statusRequest = none := by decide
  have h := strategies_store_only_ok notFoundHost onlineHost currentStore statusRequest hall
  have hbad := h.2.2.2.2.2 notFoundResponse rfl (by decide)
  ⟨hall, hmiss, rfl, by decide, hbad.2.2.2.2.2.1 hmiss, hbad.2.2.2.1, hbad.2.2.2.2.1,
    hbad.1, hbad.2.1, h.2.1⟩

/-- C9 fails as stated: the static cache holds no entry for the icon (it does
not even exist), the dynamic cache holds one, the network would answer, and
`cacheFirst` returns the entry of the dynamic cache after a single
`caches.match`, without any fetch. -/
theorem cacheFirst_serves_dynamic_entry :
    namespaceLookup dynamicOnlyStore STATIC_CACHE_NAME iconRequest = none ∧
    onlineHost.fetch iconRequest = .ok okResponse ∧
    (cacheFirst onlineHost dynamicOnlyStore iconRequest).result = .ok staleResponse ∧
    (cacheFirst onlineHost dynamicOnlyStore iconRequest).trace = [Effect.cachesMatch iconRequest] ∧
    staleResponse ≠ okResponse := by
  refine ⟨by decide, rfl, by rfl, by rfl, by decide⟩

/-- C9 as amended: `cacheFirst` consults all caches. When no cache holds an
entry for the request, it performs exactly one network fetch and, when that
fetch returns a response (and, for an ok response, the static cache can be
opened), returns the network response; an entry held by any cache is
returned without a fetch. -/
theorem cacheFirst_consults_all_namespaces (P : Platform) (st : CacheStorage) (request : Request) :
    (cachesMatch st request = none →
      Effect.fetch request ∈ (cacheFirst P st request).trace ∧
      fetchCount (cacheFirst P st request).trace = 1 ∧
      ∀ r, P.fetch request = .ok r → (r.ok = true → P.openError STATIC_CACHE_NAME = none) →
        (cacheFirst P st request).result = .ok r) ∧
    (∀ cached, cachesMatch st request = some cached →
      (cacheFirst P st request).result = .ok cached ∧
      fetchCount (cacheFirst P st request).trace = 0) := by
  constructor
  · intro hmiss
    refine ⟨?_, ?_, ?_⟩
    · unfold cacheFirst
      rw [hmiss]; dsimp only
      split
      · rw [cacheFirstCatch_trace]; simp
      · split
        · split
          · rw [cacheFirstCatch_trace]; simp
          · simp
        · simp
    · unfold cacheFirst
      rw [hmiss]; dsimp only
      split
      · rw [cacheFirstCatch_trace]; simp [fetchCount, Effect.isFetch]
      · split
        · split
          · rw [cacheFirstCatch_trace]; simp [fetchCount, Effect.isFetch]
          · simp [fetchCount, Effect.isFetch]
        · simp [fetchCount, Effect.isFetch]
    · intro r hnet hopen
      by_cases hok : r.ok = true
      · simp [cacheFirst, hmiss, hnet, hok, hopen hok]
      · simp [cacheFirst, hmiss, hnet, hok]
  · intro cached hc
    rw [cacheFirst_hit P st request cached hc]
    simp [fetchCount, Effect.isFetch]

/-- The entry of the dynamic cache is served by `cacheFirst` without a fetch. -/
theorem cacheFirst_consults_all_namespaces_witness :
    cachesMatch dynamicOnlyStore iconRequest = some staleResponse ∧
    (cacheFirst onlineHost dynamicOnlyStore iconRequest).result = .ok staleResponse ∧
    fetchCount (cacheFirst onlineHost dynamicOnlyStore iconRequest).trace = 0 :=
  ⟨by rfl, (cacheFirst_consults_all_namespaces onlineHost dynamicOnlyStore iconRequest).2
    staleResponse (by rfl)⟩

/-! ## The lifecycle -/

/-- C5 fails as stated: without network the first preload fetch fails and the
promise chain of the install listener rejects, yet the promise handed to
`event.waitUntil` is fulfilled. -/
theorem install_reports_success_when_offline :
    (∃ path ∈ STATIC_FILES, offlineHost.fetch (preloadRequest offlineHost path) = .error failedFetch) ∧
    (installChain offlineHost []).result = .error failedFetch ∧
    (installHandler offlineHost []).result = .ok () :=
  ⟨⟨"/", by decide, rfl⟩, by rfl, by rfl⟩

/-- C5 as amended: the promise the install listener hands to
`event.waitUntil` is always fulfilled; when a preload fetch fails or returns a
response that is not ok, the chain before the `.catch` rejects, `skipWaiting`
is not called, and the store is the one before the install, at most with the
static cache opened. -/
theorem install_failure_is_logged_not_propagated (P : Platform) (st : CacheStorage) :
    (installHandler P st).result = .ok () ∧
    ((∃ path ∈ STATIC_FILES, ∀ r, P.fetch (preloadRequest P path) = .ok r → r.ok = false) →
      (∃ e, (installChain P st).result = .error e) ∧
      Effect.skipWaiting ∉ (installHandler P st).trace ∧
      ((installHandler P st).store = st ∨
        (installHandler P st).store = cachesOpen st STATIC_CACHE_NAME)) := by
  refine ⟨catchAndLog_result _, ?_⟩
  intro hbad
  have hreq : ∃ q ∈ STATIC_FILES.map (preloadRequest P),
      ∀ r, P.fetch q = .ok r → r.ok = false := by
    rcases hbad with ⟨path, hp, h⟩
    exact ⟨preloadRequest P path, List.mem_map.2 ⟨path, hp, rfl⟩, h⟩
  rcases fetchAll_error P _ hreq with ⟨e, he⟩
  unfold installHandler
  rw [catchAndLog_trace, catchAndLog_store]
  unfold installChain
  cases ho : P.openError STATIC_CACHE_NAME with
  | some e0 => exact ⟨⟨e0, rfl⟩, by simp, Or.inl rfl⟩
  | none =>
    have hadd : cacheAddAll P (cachesOpen st STATIC_CACHE_NAME) STATIC_CACHE_NAME STATIC_FILES =
        ⟨.error e, cachesOpen st STATIC_CACHE_NAME,
          (STATIC_FILES.map (preloadRequest P)).map Effect.fetch, []⟩ := by
      simp only [cacheAddAll, he]
    simp only [hadd]
    refine ⟨⟨e, rfl⟩, ?_, ?_⟩ <;> simp

/-- Without network the install chain rejects and the listener reports success. -/
theorem install_failure_is_logged_not_propagated_witness :
    (∃ path ∈ STATIC_FILES,
      ∀ r, offlineHost.fetch (preloadRequest offlineHost path) = .ok r → r.ok = false) ∧
    (∃ e, (installChain offlineHost []).result = .error e) ∧
    (installHandler offlineHost []).result = .ok () :=
  have hbad : ∃ path ∈ STATIC_FILES,
      ∀ r, offlineHost.fetch (preloadRequest offlineHost path) = .ok r → r.ok = false :=
    ⟨"/", by decide, fun r h => by cases h⟩
  ⟨hbad, ((install_failure_is_logged_not_propagated offlineHost []).2 hbad).1,
    (install_failure_is_logged_not_propagated offlineHost []).1⟩

/-- C6 fails as stated: with every deletion succeeding, a cache of another
name that does not start with `medical-ai-` survives the activation. -/
theorem activate_keeps_foreign_namespace :
    (∀ n, offlineHost.deleteError n = none) ∧
    ¬ (∀ c ∈ (activateHandler offlineHost foreignStore).store,
        c.name = STATIC_CACHE_NAME ∨ c.name = DYNAMIC_CACHE_NAME) :=
  ⟨fun _ => rfl, by decide⟩

/-- C6 as amended: with every deletion succeeding, the caches left by the
activate listener are exactly those whose name is the current static name,
the current dynamic name, or does not start with `medical-ai-`, in their
order and with their entries unchanged; every other cache is removed. -/
theorem activate_purges_old_medical_namespaces (P : Platform) (st : CacheStorage)
    (hdel : ∀ n, P.deleteError n = none) :
    (activateHandler P st).result = .ok () ∧
    (activateHandler P st).store =
      st.filter (fun c => decide (c.name = STATIC_CACHE_NAME) ||
        decide (c.name = DYNAMIC_CACHE_NAME) || !jsStartsWith c.name "medical-ai-") ∧
    ∀ c, c ∈ (activateHandler P st).store ↔
      c ∈ st ∧ (c.name = STATIC_CACHE_NAME ∨ c.name = DYNAMIC_CACHE_NAME ∨
        jsStartsWith c.name "medical-ai-" = false) := by
  have hstore : (activateHandler P st).store =
      st.filter (fun c => decide (c.name = STATIC_CACHE_NAME) ||
        decide (c.name = DYNAMIC_CACHE_NAME) || !jsStartsWith c.name "medical-ai-") := by
    unfold activateHandler
    rw [catchAndLog_store]
    unfold activateChain
    obtain ⟨h1, h2⟩ := deleteAll_store P isOldCache hdel st
    simp only [h2, h1]
    apply List.filter_congr
    intro c _
    by_cases ha : c.name = STATIC_CACHE_NAME <;> by_cases hb : c.name = DYNAMIC_CACHE_NAME <;>
      simp [isOldCache, ha, hb]
  refine ⟨catchAndLog_result _, hstore, ?_⟩
  intro c
  rw [hstore, List.mem_filter]
  simp [or_assoc]

/-- The cache of the older version is purged, the current and the foreign one stay. -/
theorem activate_purges_old_medical_namespaces_witness :
    (∀ n, offlineHost.deleteError n = none) ∧
    (activateHandler offlineHost mixedStore).store =
      [⟨STATIC_CACHE_NAME, []⟩, ⟨"streamlit-cache-v1", []⟩] :=
  ⟨fun _ => rfl,
   (activate_purges_old_medical_namespaces offlineHost mixedStore (fun _ => rfl)).2.1.trans (by decide)⟩

/-! ## The control channel -/

/-- C10 fails as stated: with every deletion succeeding, `caches.keys()` after
`clearAllCaches` still lists a cache whose name does not start with
`medical-ai-`. -/
theorem clearAllCaches_keeps_foreign_namespace :
    (∀ n, offlineHost.deleteError n = none) ∧
    cachesKeys (clearAllCaches offlineHost foreignStore).store = ["streamlit-cache-v1"] ∧
    cachesKeys (clearAllCaches offlineHost foreignStore).store ≠ [] :=
  ⟨fun _ => rfl, by decide, by decide⟩

/-- C10 as amended: with every deletion succeeding, `clearAllCaches` removes
exactly the caches whose name starts with `medical-ai-`, whatever their
version; `caches.keys()` then returns the other names, hence nothing when
every cache carried that prefix; a second call on the resulting store leaves
it as it is; and the `CLEAR_CACHE` message does the same to the store. -/
theorem clearAllCaches_purges_medical_namespaces (P P2 : Platform) (st : CacheStorage)
    (hdel : ∀ n, P.deleteError n = none) :
    (clearAllCaches P st).store = st.filter (fun c => !jsStartsWith c.name "medical-ai-") ∧
    cachesKeys (clearAllCaches P st).store =
      (cachesKeys st).filter (fun n => !jsStartsWith n "medical-ai-") ∧
    ((∀ c ∈ st, jsStartsWith c.name "medical-ai-" = true) →
      cachesKeys (clearAllCaches P st).store = []) ∧
    (clearAllCaches P2 (clearAllCaches P st).store).store = (clearAllCaches P st).store ∧
    (messageHandler P st (some "CLEAR_CACHE")).store = (clearAllCaches P st).store := by
  have hstore : (clearAllCaches P st).store =
      st.filter (fun c => !jsStartsWith c.name "medical-ai-") := by
    unfold clearAllCaches
    rw [catchAndLog_store]
    exact (deleteAll_store P isMedicalCache hdel st).1
  have hkeys : cachesKeys (clearAllCaches P st).store =
      (cachesKeys st).filter (fun n => !jsStartsWith n "medical-ai-") := by
    rw [hstore]
    simp only [cachesKeys, List.filter_map]
    rfl
  refine ⟨hstore, hkeys, ?_, ?_, ?_⟩
  · intro hall
    rw [hstore, cachesKeys, List.map_eq_nil_iff, List.filter_eq_nil_iff]
    intro c hc
    simp [hall c hc]
  · have hidle : ∀ n ∈ cachesKeys (clearAllCaches P st).store, isMedicalCache n = false := by
      intro n hn
      rw [hkeys] at hn
      have := (List.mem_filter.1 hn).2
      simpa [isMedicalCache] using this
    show (catchAndLog (deleteAll P2 isMedicalCache (clearAllCaches P st).store)).store = _
    rw [catchAndLog_store]
    unfold deleteAll
    rw [deleteAll_fold_idle P2 isMedicalCache _ hidle]
  · simp [messageHandler]

/-- Scenario F: with the static and the dynamic cache both holding entries,
`caches.keys()` is empty after `clearAllCaches`. -/
theorem clearAllCaches_purges_medical_namespaces_witness :
    (∀ n, offlineHost.deleteError n = none) ∧
    cachesKeys (clearAllCaches offlineHost currentStore).store = [] :=
  ⟨fun _ => rfl,
   (clearAllCaches_purges_medical_namespaces offlineHost offlineHost currentStore
      (fun _ => rfl)).2.2.1 (by decide)⟩

end ServiceWorker
